import Mathlib

/-!
Favorites persistence of `src/App.js`.

A shallow embedding of the two pieces of `src/App.js` that touch the local
key-value store under the key `favorites`:

* `DetailScreen` (lines 44-85) with its `toggleFavorite` handler (lines 55-71);
* `FavoritesScreen` (lines 88-125) with its `loadFavorites` effect (lines 92-101).

External collaborators are modelled, not implemented:

* `AsyncStorage` is a record holding the value under the key `favorites`; each
  `getItem` / `setItem` call takes a boolean saying whether the promise of that
  call resolves (`true`) or rejects (`false`).  A rejected `setItem` leaves the
  persisted value as it was.
* A stored text is classified by what `JSON.parse` does with it (`Text`): the
  empty string, a non-empty text that `JSON.parse` rejects, or a text on which
  `JSON.parse` returns the value `v`.
* Numbers are the values `JSON.parse` can return: a finite value, negative
  zero, and the two infinities that an overflowing literal such as `1e400`
  parses to.  `JSON.stringify` writes an infinity as `null` and negative zero
  as `0`, so a value that holds one of them does not come back from the store
  as it went in (`reserialize`).
* `await` is sequential composition: every handler runs to completion.
-/

namespace App

/-! ## JavaScript values that can come out of `JSON.parse` -/

/-- Numbers that `JSON.parse` can return: a finite value (positive zero included), negative
zero (from `-0`), and the infinities that an overflowing literal (`1e400`, `-1e400`) gives. -/
inductive JsNumber where
  | finite (value : Rat)
  | negZero
  | infinity
  | negInfinity

/-- JavaScript values, as produced by `JSON.parse` and consumed by `JSON.stringify`. -/
inductive Json where
  | null
  | bool (b : Bool)
  | num (n : JsNumber)
  | str (s : String)
  | arr (items : List Json)
  | obj (fields : List (String × Json))

/-- Exceptions that the handlers of `App.js` can meet. -/
inductive JsError where
  | storageFailure
  | syntaxError
  | typeError
  deriving DecidableEq, Repr

/-- A text value held by the store, classified by the behaviour of `JSON.parse` on it: the
empty string, a non-empty text that `JSON.parse` rejects, and a text that `JSON.parse` turns
into the value `v`. -/
inductive Text where
  | empty
  | malformed (raw : String)
  | json (v : Json)

/-- The call `JSON.parse(text)`: a `SyntaxError` on the empty string and on malformed text. -/
def JSON.parse : Text → Except JsError Json
  | Text.empty => Except.error JsError.syntaxError
  | Text.malformed _ => Except.error JsError.syntaxError
  | Text.json v => Except.ok v

/-- What `JSON.parse` reads back from the text that `JSON.stringify` writes for a number: an
infinity is written as `null`, negative zero as `0`, a finite value as itself. -/
def reserializeNumber : JsNumber → Json
  | JsNumber.finite value => Json.num (JsNumber.finite value)
  | JsNumber.negZero => Json.num (JsNumber.finite 0)
  | JsNumber.infinity => Json.null
  | JsNumber.negInfinity => Json.null

mutual
/-- What `JSON.parse` reads back from the text that `JSON.stringify` writes for a value. -/
def reserialize : Json → Json
  | Json.null => Json.null
  | Json.bool b => Json.bool b
  | Json.num n => reserializeNumber n
  | Json.str s => Json.str s
  | Json.arr items => Json.arr (reserializeList items)
  | Json.obj fields => Json.obj (reserializeFields fields)
/-- The elements of an array, each as `JSON.stringify` writes it. -/
def reserializeList : List Json → List Json
  | [] => []
  | x :: rest => reserialize x :: reserializeList rest
/-- The properties of an object, each value as `JSON.stringify` writes it. -/
def reserializeFields : List (String × Json) → List (String × Json)
  | [] => []
  | (k, v) :: rest => (k, reserialize v) :: reserializeFields rest
end

/-- The call `JSON.stringify(value)`: the text on which `JSON.parse` returns `reserialize value`. -/
def JSON.stringify (v : Json) : Text := Text.json (reserialize v)

/-- Truthiness of the result of `getItem` (`null` or a string): only a non-empty string is truthy. -/
def truthy : Option Text → Bool
  | none => false
  | some Text.empty => false
  | some _ => true

/-! ## The store -/

/-- The store: the value under the key `favorites` (`none` when the key is absent, so that
`getItem` resolves to `null`) and the history of the values written by resolved `setItem` calls. -/
structure AsyncStorage where
  favorites : Option Text
  resolvedWrites : List Text

/-- The call `AsyncStorage.getItem('favorites')`; `ok` says whether the promise resolves. -/
def AsyncStorage.getItem (ok : Bool) (st : AsyncStorage) : Except JsError (Option Text) :=
  if ok then Except.ok st.favorites else Except.error JsError.storageFailure

/-- The call `AsyncStorage.setItem('favorites', value)`; `ok` says whether the promise resolves. -/
def AsyncStorage.setItem (ok : Bool) (st : AsyncStorage) (value : Text) :
    Except JsError Unit × AsyncStorage :=
  if ok then
    (Except.ok (), { favorites := some value, resolvedWrites := st.resolvedWrites ++ [value] })
  else
    (Except.error JsError.storageFailure, st)

/-- The device: the store and the lines printed with `console.error`. -/
structure Device where
  storage : AsyncStorage
  console : List (String × JsError)

/-! ## `DetailScreen` -/

/-- State of a mounted `DetailScreen`: the title of `route.params.category` and the
`isFavorite` flag of `useState`. -/
structure DetailScreen where
  categoryTitle : String
  isFavorite : Bool

/-- Mounting `DetailScreen`: `useState(false)` (line 46). -/
def DetailScreen.mount (categoryTitle : String) : DetailScreen :=
  { categoryTitle := categoryTitle, isFavorite := false }

/-- The object `webtoon` of lines 48-53. -/
def webtoon (categoryTitle : String) : Json :=
  Json.obj
    [("id", Json.str "1"),
     ("title", Json.str "Sample Webtoon"),
     ("image", Json.str "https://example.com/sample-webtoon.jpg"),
     ("description", Json.str ("This is a sample webtoon in the " ++ categoryTitle ++ " category."))]

/-- Own property lookup in a parsed object (the keys of an object that `JSON.parse` returns
are distinct, so the first match is the only one). -/
def lookupField (key : String) : List (String × Json) → Option Json
  | [] => none
  | (k, v) :: rest => if k = key then some v else lookupField key rest

/-- The property access `fav.id`: a `TypeError` on `null`, `undefined` (`none`) on a value
without that property. -/
def getId : Json → Except JsError (Option Json)
  | Json.null => Except.error JsError.typeError
  | Json.obj fields => Except.ok (lookupField "id" fields)
  | _ => Except.ok none

/-- The comparison `value !== s` against a string `s`. -/
def strictNotEqualString : Option Json → String → Bool
  | some (Json.str t), s => t != s
  | _, _ => true

/-- The callback `fav => fav.id !== webtoon.id` of line 61 (`webtoon.id` is `'1'`). -/
def keepFavorite (fav : Json) : Except JsError Bool :=
  match getId fav with
  | Except.error e => Except.error e
  | Except.ok v => Except.ok (strictNotEqualString v "1")

/-- The method `Array.prototype.filter` with a callback that may throw. -/
def filterItems (f : Json → Except JsError Bool) : List Json → Except JsError (List Json)
  | [] => Except.ok []
  | x :: rest =>
    match f x with
    | Except.error e => Except.error e
    | Except.ok keep =>
      match filterItems f rest with
      | Except.error e => Except.error e
      | Except.ok kept => Except.ok (if keep then x :: kept else kept)

/-- The call `favoritesArray.filter(fav => fav.id !== webtoon.id)` on a parsed value: a
`TypeError` when the value is not an array. -/
def callFilter : Json → Except JsError Json
  | Json.arr items =>
    match filterItems keepFavorite items with
    | Except.error e => Except.error e
    | Except.ok kept => Except.ok (Json.arr kept)
  | _ => Except.error JsError.typeError

/-- The call `favoritesArray.push(webtoon)` on a parsed value: a `TypeError` when the value
is not an array. -/
def callPush (item : Json) : Json → Except JsError Json
  | Json.arr items => Except.ok (Json.arr (items ++ [item]))
  | _ => Except.error JsError.typeError

/-- The `try` block of `toggleFavorite` (lines 57-67): the outcome of the block, the flag and
the store after it. -/
def toggleFavoriteTry (readOk writeOk : Bool) (scr : DetailScreen) (st : AsyncStorage) :
    Except JsError Unit × DetailScreen × AsyncStorage :=
  match AsyncStorage.getItem readOk st with
  | Except.error e => (Except.error e, scr, st)
  | Except.ok favorites =>
    match (if truthy favorites then
             (match favorites with
              | some text => JSON.parse text
              | none => Except.ok (Json.arr []))
           else Except.ok (Json.arr [])) with
    | Except.error e => (Except.error e, scr, st)
    | Except.ok favoritesArray =>
      match (if scr.isFavorite then callFilter favoritesArray
             else callPush (webtoon scr.categoryTitle) favoritesArray) with
      | Except.error e => (Except.error e, scr, st)
      | Except.ok updated =>
        match AsyncStorage.setItem writeOk st (JSON.stringify updated) with
        | (Except.error e, st1) => (Except.error e, scr, st1)
        | (Except.ok _, st1) => (Except.ok (), { scr with isFavorite := !scr.isFavorite }, st1)

/-- The handler `toggleFavorite` (lines 55-71): the `try` block, and the `catch` block that
prints the error.  The first component is the settlement of the promise it returns. -/
def toggleFavorite (readOk writeOk : Bool) (scr : DetailScreen) (dev : Device) :
    Except JsError Unit × DetailScreen × Device :=
  match toggleFavoriteTry readOk writeOk scr dev.storage with
  | (Except.error e, scr1, st1) =>
    (Except.ok (), scr1,
      { storage := st1, console := dev.console ++ [("Error toggling favorite:", e)] })
  | (Except.ok _, scr1, st1) => (Except.ok (), scr1, { storage := st1, console := dev.console })

/-! ## `FavoritesScreen` -/

/-- State of a mounted `FavoritesScreen`: the value held by `favorites` of `useState`. -/
structure FavoritesScreen where
  favorites : Json

/-- Mounting `FavoritesScreen`: `useState([])` (line 89). -/
def FavoritesScreen.mount : FavoritesScreen := { favorites := Json.arr [] }

/-- The `try` block of `loadFavorites` (lines 94-97). -/
def loadFavoritesTry (readOk : Bool) (scr : FavoritesScreen) (st : AsyncStorage) :
    Except JsError Unit × FavoritesScreen :=
  match AsyncStorage.getItem readOk st with
  | Except.error e => (Except.error e, scr)
  | Except.ok storedFavorites =>
    if truthy storedFavorites then
      match storedFavorites with
      | some text =>
        match JSON.parse text with
        | Except.error e => (Except.error e, scr)
        | Except.ok v => (Except.ok (), { favorites := v })
      | none => (Except.ok (), scr)
    else (Except.ok (), scr)

/-- The effect `loadFavorites` (lines 92-101): the `try` block, and the `catch` block that
prints the error.  The first component is the settlement of the promise it returns. -/
def loadFavorites (readOk : Bool) (scr : FavoritesScreen) (dev : Device) :
    Except JsError Unit × FavoritesScreen × Device :=
  match loadFavoritesTry readOk scr dev.storage with
  | (Except.error e, scr1) =>
    (Except.ok (), scr1,
      { storage := dev.storage, console := dev.console ++ [("Error loading favorites:", e)] })
  | (Except.ok _, scr1) => (Except.ok (), scr1, dev)

/-! ## Vocabulary of the specification -/

/-- The entry `fav` carries the identifier `id`: it is an object whose own property `id` is
the string `id` (the entries that `fav.id !== id` rejects). -/
def hasId (id : String) : Json → Bool
  | Json.obj fields =>
    match lookupField "id" fields with
    | some (Json.str t) => t == id
    | _ => false
  | _ => false

/-- Membership check `isFavorite(collection, id)` of the specification. -/
def containsId (id : String) (c : List Json) : Bool := c.any (hasId id)

/-- Number of entries of a collection that carry the identifier `id`. -/
def countId (id : String) (c : List Json) : Nat := c.countP (hasId id)

/-- The collection without the entries that carry the identifier `id`, order kept. -/
def withoutId (id : String) (c : List Json) : List Json := c.filter (fun fav => !hasId id fav)

/-- The value is a string. -/
def isString : Json → Bool
  | Json.str _ => true
  | _ => false

/-- A serialised `FavoriteItem`: an object whose fields are all strings, with `id`, `title`,
`image` and `description` among them. -/
def isFavoriteItem : Json → Bool
  | Json.obj fields =>
    fields.all (fun field => isString field.2) &&
      ((lookupField "id" fields).isSome && (lookupField "title" fields).isSome &&
        (lookupField "image" fields).isSome && (lookupField "description" fields).isSome)
  | _ => false

/-- The collection that line 58 reads out of the value returned by `getItem`, when that value
is absent, empty or the serialisation of an array. -/
def storedCollection : Option Text → Option (List Json)
  | none => some []
  | some Text.empty => some []
  | some (Text.json (Json.arr items)) => some items
  | some _ => none

/-- The persisted value is absent, empty or the serialisation of a sequence of `FavoriteItem`. -/
def validStore (value : Option Text) : Prop :=
  ∃ c, storedCollection value = some c ∧ ∀ fav ∈ c, isFavoriteItem fav = true

/-- The device after the add path: a `toggleFavorite` call that sees `isFavorite = false`,
with the read and the write succeeding. -/
def addPath (categoryTitle : String) (dev : Device) : Device :=
  (toggleFavorite true true { categoryTitle := categoryTitle, isFavorite := false } dev).2.2

/-- The device after the remove path: a `toggleFavorite` call that sees `isFavorite = true`,
with the read and the write succeeding. -/
def removePath (categoryTitle : String) (dev : Device) : Device :=
  (toggleFavorite true true { categoryTitle := categoryTitle, isFavorite := true } dev).2.2

/-- A device whose store holds `value` under the key `favorites`, nothing written or printed yet. -/
def deviceWith (value : Option Text) : Device :=
  { storage := { favorites := value, resolvedWrites := [] }, console := [] }

/-- A sequence of `toggleFavorite` calls on one mounted `DetailScreen`, each run to completion
before the next starts; every call carries the outcomes of its read and of its write. -/
def runToggles : List (Bool × Bool) → DetailScreen → Device → DetailScreen × Device
  | [], scr, dev => (scr, dev)
  | (readOk, writeOk) :: rest, scr, dev =>
    runToggles rest (toggleFavorite readOk writeOk scr dev).2.1
      (toggleFavorite readOk writeOk scr dev).2.2

/-- A sequence of `DetailScreen` visits: each mounts the screen for a category and runs its
`toggleFavorite` calls. -/
def runVisits : List (String × List (Bool × Bool)) → Device → Device
  | [], dev => dev
  | (categoryTitle, presses) :: rest, dev =>
    runVisits rest (runToggles presses (DetailScreen.mount categoryTitle) dev).2

/-- Every entry of the collection is an item built by `DetailScreen`. -/
def allWebtoons (c : List Json) : Prop := ∀ fav ∈ c, ∃ t, fav = webtoon t

/-- Invariant of one visit: for some collection `c` with no entry carrying the item id, either
the flag is unset and the store holds `c`, or the flag is set and the store holds `c` with the
item of the visit appended. -/
def visitInv (t : String) (scr : DetailScreen) (dev : Device) : Prop :=
  scr.categoryTitle = t ∧
    ∃ c, containsId "1" c = false ∧
      ((scr.isFavorite = false ∧ storedCollection dev.storage.favorites = some c) ∨
        (scr.isFavorite = true ∧
          dev.storage.favorites = some (Text.json (Json.arr (c ++ [webtoon t])))))

/-- Invariant across visits: the store holds a collection of items built by `DetailScreen`,
with at most `n` entries, one more allowed while the flag is set. -/
def boundedBy (n : Nat) (scr : DetailScreen) (dev : Device) : Prop :=
  ∃ c, storedCollection dev.storage.favorites = some c ∧ allWebtoons c ∧
    c.length ≤ n + (if scr.isFavorite = true then 1 else 0)

/-- A sample collection: the item stored twice, for two categories, around another entry. -/
def sampleCollection : List Json :=
  [webtoon "Action", Json.obj [("id", Json.str "7")], webtoon "Romance"]

/-- A device whose store holds the serialisation of `sampleCollection`. -/
def sampleDevice : Device := deviceWith (some (Text.json (Json.arr sampleCollection)))

/-- A sample item with another identifier. -/
def otherItem : Json :=
  Json.obj
    [("id", Json.str "7"), ("title", Json.str "Other Webtoon"),
     ("image", Json.str "https://example.com/other.jpg"), ("description", Json.str "Another one.")]

/-- A device whose store holds the serialisation of the one-item collection `[otherItem]`. -/
def otherDevice : Device := deviceWith (some (Text.json (Json.arr [otherItem])))

/-- A device whose store holds the text `[1e400]`, which parses to a list holding `Infinity`. -/
def overflowDevice : Device :=
  deviceWith (some (Text.json (Json.arr [Json.num JsNumber.infinity])))

/-! ## Basic facts -/

theorem reserializeList_eq_map (c : List Json) : reserializeList c = c.map reserialize := by
  induction c with
  | nil => rfl
  | cons x rest ih => simp [reserializeList, ih]

theorem reserialize_arr (c : List Json) :
    reserialize (Json.arr c) = Json.arr (c.map reserialize) := by
  simp only [reserialize, reserializeList_eq_map]

theorem reserializeNumber_idem (n : JsNumber) :
    reserialize (reserializeNumber n) = reserializeNumber n := by
  cases n <;> simp [reserializeNumber, reserialize]

mutual
theorem reserialize_idem : ∀ v : Json, reserialize (reserialize v) = reserialize v
  | Json.null => by simp [reserialize]
  | Json.bool b => by simp [reserialize]
  | Json.num n => by simp [reserialize, reserializeNumber_idem]
  | Json.str s => by simp [reserialize]
  | Json.arr items => by simp [reserialize, reserializeList_idem items]
  | Json.obj fields => by simp [reserialize, reserializeFields_idem fields]
theorem reserializeList_idem :
    ∀ c : List Json, reserializeList (reserializeList c) = reserializeList c
  | [] => by simp [reserializeList]
  | x :: rest => by simp [reserializeList, reserialize_idem x, reserializeList_idem rest]
theorem reserializeFields_idem :
    ∀ fields : List (String × Json),
      reserializeFields (reserializeFields fields) = reserializeFields fields
  | [] => by simp [reserializeFields]
  | (k, v) :: rest => by
    simp [reserializeFields, reserialize_idem v, reserializeFields_idem rest]
end

theorem map_reserialize_idem (c : List Json) :
    (c.map reserialize).map reserialize = c.map reserialize := by
  rw [← reserializeList_eq_map, ← reserializeList_eq_map, reserializeList_idem]

theorem lookupField_reserializeFields (key : String) (fields : List (String × Json)) :
    lookupField key (reserializeFields fields) = (lookupField key fields).map reserialize := by
  induction fields with
  | nil => rfl
  | cons field rest ih =>
    rcases field with ⟨k, v⟩
    simp only [reserializeFields, lookupField]
    split <;> simp [ih]

/-- Writing an entry to the store and reading it back keeps whether it carries the id. -/
theorem hasId_reserialize (id : String) (fav : Json) :
    hasId id (reserialize fav) = hasId id fav := by
  cases fav with
  | null => rfl
  | bool b => rfl
  | num n => cases n <;> rfl
  | str s => rfl
  | arr items => rfl
  | obj fields =>
    simp only [reserialize, hasId, lookupField_reserializeFields]
    cases lookupField "id" fields with
    | none => rfl
    | some v =>
      cases v with
      | num n => cases n <;> rfl
      | _ => rfl

theorem containsId_map_reserialize (id : String) (c : List Json) :
    containsId id (c.map reserialize) = containsId id c := by
  induction c with
  | nil => rfl
  | cons x rest ih =>
    simp only [containsId, List.map_cons, List.any_cons, hasId_reserialize] at ih ⊢
    rw [ih]

theorem countId_map_reserialize (id : String) (c : List Json) :
    countId id (c.map reserialize) = countId id c := by
  induction c with
  | nil => rfl
  | cons x rest ih =>
    simp only [countId, List.map_cons, List.countP_cons, hasId_reserialize] at ih ⊢
    rw [ih]

theorem withoutId_map_reserialize (id : String) (c : List Json) :
    withoutId id (c.map reserialize) = (withoutId id c).map reserialize := by
  induction c with
  | nil => rfl
  | cons x rest ih =>
    simp only [withoutId, List.map_cons, List.filter_cons, hasId_reserialize] at ih ⊢
    rw [ih]
    split <;> rfl

theorem reserialize_webtoon (t : String) : reserialize (webtoon t) = webtoon t := rfl

theorem webtoon_hasId (t : String) : hasId "1" (webtoon t) = true := by
  simp [hasId, webtoon, lookupField]

theorem webtoon_isFavoriteItem (t : String) : isFavoriteItem (webtoon t) = true := by
  simp [isFavoriteItem, webtoon, lookupField, isString]

theorem isFavoriteItem_ne_null {fav : Json} (h : isFavoriteItem fav = true) : fav ≠ Json.null := by
  intro hn
  subst hn
  simp [isFavoriteItem] at h

theorem reserializeFields_of_strings (fields : List (String × Json))
    (h : fields.all (fun field => isString field.2) = true) :
    reserializeFields fields = fields := by
  induction fields with
  | nil => rfl
  | cons field rest ih =>
    rcases field with ⟨k, v⟩
    simp only [List.all_cons, Bool.and_eq_true] at h
    cases v <;> simp [isString] at h
    simp only [reserializeFields, reserialize]
    rw [ih (by simpa using h)]

/-- A `FavoriteItem` comes back from the store as it went in. -/
theorem reserialize_of_isFavoriteItem {fav : Json} (h : isFavoriteItem fav = true) :
    reserialize fav = fav := by
  cases fav with
  | obj fields =>
    simp only [isFavoriteItem, Bool.and_eq_true] at h
    simp only [reserialize, reserializeFields_of_strings fields h.1]
  | _ => simp [isFavoriteItem] at h

theorem map_reserialize_of_isFavoriteItem {c : List Json}
    (h : ∀ fav ∈ c, isFavoriteItem fav = true) : c.map reserialize = c := by
  induction c with
  | nil => rfl
  | cons x rest ih =>
    simp only [List.map_cons]
    rw [reserialize_of_isFavoriteItem (h x (List.mem_cons_self _ _)),
      ih (fun fav hf => h fav (List.mem_cons_of_mem _ hf))]

theorem keepFavorite_of_ne_null {fav : Json} (h : fav ≠ Json.null) :
    keepFavorite fav = Except.ok (!hasId "1" fav) := by
  cases fav with
  | null => exact absurd rfl h
  | bool b => rfl
  | num n => rfl
  | str s => rfl
  | arr items => rfl
  | obj fields =>
    simp only [keepFavorite, getId, hasId]
    cases hl : lookupField "id" fields with
    | none => rfl
    | some v => cases v <;> simp [strictNotEqualString, bne]

theorem filterItems_of_ne_null (c : List Json) (h : ∀ fav ∈ c, fav ≠ Json.null) :
    filterItems keepFavorite c = Except.ok (withoutId "1" c) := by
  induction c with
  | nil => rfl
  | cons x rest ih =>
    have hx : x ≠ Json.null := h x (List.mem_cons_self _ _)
    have hrest : ∀ fav ∈ rest, fav ≠ Json.null := fun fav hf => h fav (List.mem_cons_of_mem _ hf)
    simp only [filterItems, keepFavorite_of_ne_null hx, ih hrest, withoutId, List.filter_cons]

/-- When the filter of line 61 returns, it returns the entries that do not carry the item id. -/
theorem filterItems_ok (c kept : List Json)
    (h : filterItems keepFavorite c = Except.ok kept) : kept = withoutId "1" c := by
  induction c generalizing kept with
  | nil =>
    simp only [filterItems, Except.ok.injEq] at h
    rw [← h]
    rfl
  | cons x rest ih =>
    by_cases hx : x = Json.null
    · subst hx
      simp [filterItems, keepFavorite, getId] at h
    · simp only [filterItems, keepFavorite_of_ne_null hx] at h
      cases hr : filterItems keepFavorite rest with
      | error e => simp [hr] at h
      | ok ys =>
        simp only [hr, Except.ok.injEq] at h
        rw [← h, ih ys hr]
        simp only [withoutId, List.filter_cons]

theorem containsId_withoutId (id : String) (c : List Json) :
    containsId id (withoutId id c) = false := by
  simp [containsId, withoutId, List.any_eq_false]

theorem withoutId_of_not_containsId (id : String) (c : List Json)
    (h : containsId id c = false) : withoutId id c = c := by
  simp only [containsId, List.any_eq_false] at h
  simp only [withoutId, List.filter_eq_self]
  intro fav hf
  simp [h fav hf]

theorem withoutId_idem (id : String) (c : List Json) :
    withoutId id (withoutId id c) = withoutId id c :=
  withoutId_of_not_containsId id _ (containsId_withoutId id c)

theorem withoutId_append_webtoon (t : String) (c : List Json) (hn : containsId "1" c = false) :
    withoutId "1" (c ++ [webtoon t]) = c := by
  have hc := withoutId_of_not_containsId "1" c hn
  simp only [withoutId] at hc
  simp [withoutId, List.filter_append, List.filter_cons, webtoon_hasId, hc]

theorem allWebtoons_ne_null {c : List Json} (h : allWebtoons c) : ∀ fav ∈ c, fav ≠ Json.null := by
  intro fav hf
  rcases h fav hf with ⟨t, rfl⟩
  simp [webtoon]

theorem withoutId_allWebtoons {c : List Json} (h : allWebtoons c) : withoutId "1" c = [] := by
  simp only [withoutId, List.filter_eq_nil_iff]
  intro fav hf
  rcases h fav hf with ⟨t, rfl⟩
  simp [webtoon_hasId]

theorem map_reserialize_allWebtoons {c : List Json} (h : allWebtoons c) :
    c.map reserialize = c := by
  refine map_reserialize_of_isFavoriteItem ?_
  intro fav hf
  rcases h fav hf with ⟨t, rfl⟩
  exact webtoon_isFavoriteItem t

/-- The parsed array of line 58 for a store value that holds a collection. -/
theorem parse_of_storedCollection {value : Option Text} {c : List Json}
    (h : storedCollection value = some c) :
    (if truthy value then
       (match value with
        | some text => JSON.parse text
        | none => Except.ok (Json.arr []))
     else Except.ok (Json.arr [])) = Except.ok (Json.arr c) := by
  cases value with
  | none => simp [storedCollection] at h; simp [truthy, h]
  | some text =>
    cases text with
    | empty => simp [storedCollection] at h; simp [truthy, h]
    | malformed raw => simp [storedCollection] at h
    | json v =>
      cases v <;> simp [storedCollection] at h
      simp [truthy, JSON.parse, h]

/-- The add path on a store that holds a collection appends the item to the collection, writes
the result and flips the flag. -/
theorem toggleFavorite_add (t : String) (dev : Device) (c : List Json)
    (h : storedCollection dev.storage.favorites = some c) :
    toggleFavorite true true { categoryTitle := t, isFavorite := false } dev =
      (Except.ok (), { categoryTitle := t, isFavorite := true },
        { storage :=
            { favorites := some (Text.json (Json.arr (c.map reserialize ++ [webtoon t]))),
              resolvedWrites :=
                dev.storage.resolvedWrites ++
                  [Text.json (Json.arr (c.map reserialize ++ [webtoon t]))] },
          console := dev.console }) := by
  simp [toggleFavorite, toggleFavoriteTry, AsyncStorage.getItem, parse_of_storedCollection h,
    callPush, AsyncStorage.setItem, JSON.stringify, reserialize_arr, reserialize_webtoon]

/-- The remove path on a store that holds a collection without `null` entries filters the
entries with the item id out, writes the result and flips the flag. -/
theorem toggleFavorite_remove (t : String) (dev : Device) (c : List Json)
    (h : storedCollection dev.storage.favorites = some c) (hc : ∀ fav ∈ c, fav ≠ Json.null) :
    toggleFavorite true true { categoryTitle := t, isFavorite := true } dev =
      (Except.ok (), { categoryTitle := t, isFavorite := false },
        { storage :=
            { favorites := some (Text.json (Json.arr ((withoutId "1" c).map reserialize))),
              resolvedWrites :=
                dev.storage.resolvedWrites ++
                  [Text.json (Json.arr ((withoutId "1" c).map reserialize))] },
          console := dev.console }) := by
  simp [toggleFavorite, toggleFavoriteTry, AsyncStorage.getItem, parse_of_storedCollection h,
    callFilter, filterItems_of_ne_null c hc, AsyncStorage.setItem, JSON.stringify, reserialize_arr]

/-- The remove path on a store that holds a collection either throws in the filter and leaves
the flag and the store as they were, or writes the filtered collection and clears the flag. -/
theorem toggleFavorite_remove_cases (t : String) (dev : Device) (c : List Json)
    (h : storedCollection dev.storage.favorites = some c) :
    ((toggleFavorite true true { categoryTitle := t, isFavorite := true } dev).2.1
          = { categoryTitle := t, isFavorite := true } ∧
        (toggleFavorite true true { categoryTitle := t, isFavorite := true } dev).2.2.storage
          = dev.storage) ∨
      ((toggleFavorite true true { categoryTitle := t, isFavorite := true } dev).2.1
          = { categoryTitle := t, isFavorite := false } ∧
        (toggleFavorite true true { categoryTitle := t, isFavorite := true }
            dev).2.2.storage.favorites
          = some (Text.json (Json.arr ((withoutId "1" c).map reserialize)))) := by
  cases hf : filterItems keepFavorite c with
  | error e =>
    left
    simp [toggleFavorite, toggleFavoriteTry, AsyncStorage.getItem, parse_of_storedCollection h,
      callFilter, hf]
  | ok kept =>
    right
    rw [filterItems_ok c kept hf] at hf
    simp [toggleFavorite, toggleFavoriteTry, AsyncStorage.getItem, parse_of_storedCollection h,
      callFilter, hf, AsyncStorage.setItem, JSON.stringify, reserialize_arr]

/-- When the write is rejected the `try` block leaves the flag and the store as they were. -/
theorem toggleFavoriteTry_write_rejected (r : Bool) (scr : DetailScreen) (st : AsyncStorage) :
    (toggleFavoriteTry r false scr st).2 = (scr, st) := by
  simp only [toggleFavoriteTry, AsyncStorage.setItem]
  repeat' split
  all_goals first | rfl | simp_all

/-- When the read is rejected the `try` block leaves the flag and the store as they were. -/
theorem toggleFavoriteTry_read_rejected (w : Bool) (scr : DetailScreen) (st : AsyncStorage) :
    toggleFavoriteTry false w scr st = (Except.error JsError.storageFailure, scr, st) := by
  simp [toggleFavoriteTry, AsyncStorage.getItem]

/-- The handler keeps the flag and the store that its `try` block leaves. -/
theorem toggleFavorite_snd (r w : Bool) (scr : DetailScreen) (dev : Device) :
    (toggleFavorite r w scr dev).2.1 = (toggleFavoriteTry r w scr dev.storage).2.1 ∧
      (toggleFavorite r w scr dev).2.2.storage = (toggleFavoriteTry r w scr dev.storage).2.2 := by
  simp only [toggleFavorite]
  split <;> rename_i heq <;> simp [heq]

/-- A call whose read or write is rejected leaves the flag and the store as they were. -/
theorem toggleFavorite_rejected (r w : Bool) (scr : DetailScreen) (dev : Device)
    (h : (r && w) = false) :
    (toggleFavorite r w scr dev).2.1 = scr ∧
      (toggleFavorite r w scr dev).2.2.storage = dev.storage := by
  have hs := toggleFavorite_snd r w scr dev
  cases w
  · have hw := toggleFavoriteTry_write_rejected r scr dev.storage
    rw [hs.1, hs.2]
    constructor
    · exact congrArg Prod.fst hw
    · exact congrArg Prod.snd hw
  · cases r
    · rw [hs.1, hs.2, toggleFavoriteTry_read_rejected]
      exact ⟨rfl, rfl⟩
    · simp at h

/-- The `try` block either throws and leaves the flag and the store as they were, or, with
the read and the write resolved, flips the flag and records exactly one write. -/
theorem toggleFavoriteTry_cases (r w : Bool) (scr : DetailScreen) (st : AsyncStorage) :
    (∃ e, toggleFavoriteTry r w scr st = (Except.error e, scr, st)) ∨
      (∃ v, r = true ∧ w = true ∧
        toggleFavoriteTry r w scr st =
          (Except.ok (), { categoryTitle := scr.categoryTitle, isFavorite := !scr.isFavorite },
            { favorites := some (Text.json v),
              resolvedWrites := st.resolvedWrites ++ [Text.json v] })) := by
  cases r
  · exact Or.inl ⟨_, toggleFavoriteTry_read_rejected w scr st⟩
  · cases w
    · simp only [toggleFavoriteTry, AsyncStorage.setItem]
      left
      repeat' split
      all_goals first | exact ⟨_, rfl⟩ | simp_all
    · simp only [toggleFavoriteTry, AsyncStorage.setItem, JSON.stringify]
      repeat' split
      all_goals first
        | exact Or.inl ⟨_, rfl⟩
        | (simp_all; done)
        | (simp_all; rename_i heq; exact ⟨_, heq.symm⟩)

/-- On a text that `JSON.parse` rejects the `try` block throws and changes nothing. -/
theorem toggleFavoriteTry_malformed (r w : Bool) (scr : DetailScreen) (st : AsyncStorage)
    (raw : String) (h : st.favorites = some (Text.malformed raw)) :
    ∃ e, toggleFavoriteTry r w scr st = (Except.error e, scr, st) := by
  cases r
  · exact ⟨_, toggleFavoriteTry_read_rejected w scr st⟩
  · exact ⟨JsError.syntaxError, by
      simp [toggleFavoriteTry, AsyncStorage.getItem, h, truthy, JSON.parse]⟩

/-- A resolved read of a text that parses to `v` leaves `v` in the `favorites` state. -/
theorem loadFavorites_json (scr : FavoritesScreen) (dev : Device) (v : Json)
    (h : dev.storage.favorites = some (Text.json v)) :
    loadFavorites true scr dev = (Except.ok (), { favorites := v }, dev) := by
  simp [loadFavorites, loadFavoritesTry, AsyncStorage.getItem, h, truthy, JSON.parse]

/-- One `toggleFavorite` call keeps the invariant of the visit. -/
theorem toggleFavorite_visitInv (t : String) (r w : Bool) (scr : DetailScreen) (dev : Device)
    (h : visitInv t scr dev) :
    visitInv t (toggleFavorite r w scr dev).2.1 (toggleFavorite r w scr dev).2.2 := by
  cases hrw : (r && w)
  · have hu := toggleFavorite_rejected r w scr dev hrw
    rw [hu.1]
    simp only [visitInv, hu.2]
    exact h
  · simp only [Bool.and_eq_true] at hrw
    rcases hrw with ⟨rfl, rfl⟩
    rcases scr with ⟨title, flag⟩
    rcases h with ⟨ht, c, hn, hcase⟩
    simp only at ht
    subst ht
    rcases hcase with ⟨hf, hst⟩ | ⟨hf, hst⟩
    · simp only at hf
      subst hf
      rw [toggleFavorite_add title dev c hst]
      exact ⟨rfl, c.map reserialize, by rw [containsId_map_reserialize, hn],
        Or.inr ⟨rfl, rfl⟩⟩
    · simp only at hf
      subst hf
      have hst1 : storedCollection dev.storage.favorites = some (c ++ [webtoon title]) := by
        rw [hst]; rfl
      rcases toggleFavorite_remove_cases title dev (c ++ [webtoon title]) hst1 with
        ⟨h1, h2⟩ | ⟨h1, h2⟩
      · rw [h1]
        refine ⟨rfl, c, hn, Or.inr ⟨rfl, ?_⟩⟩
        rw [h2]
        exact hst
      · rw [h1]
        rw [withoutId_append_webtoon title c hn] at h2
        refine ⟨rfl, c.map reserialize, by rw [containsId_map_reserialize, hn],
          Or.inl ⟨rfl, ?_⟩⟩
        rw [h2]
        rfl

/-- Every sequence of `toggleFavorite` calls keeps the invariant of the visit. -/
theorem runToggles_visitInv (t : String) (presses : List (Bool × Bool)) :
    ∀ (scr : DetailScreen) (dev : Device), visitInv t scr dev →
      visitInv t (runToggles presses scr dev).1 (runToggles presses scr dev).2 := by
  induction presses with
  | nil => intro scr dev h; exact h
  | cons p rest ih =>
    intro scr dev h
    rcases p with ⟨r, w⟩
    simp only [runToggles]
    exact ih _ _ (toggleFavorite_visitInv t r w scr dev h)

/-- One `toggleFavorite` call keeps the bound on the number of stored entries. -/
theorem toggleFavorite_boundedBy (n : Nat) (r w : Bool) (scr : DetailScreen) (dev : Device)
    (h : boundedBy n scr dev) :
    boundedBy n (toggleFavorite r w scr dev).2.1 (toggleFavorite r w scr dev).2.2 := by
  cases hrw : (r && w)
  · have hu := toggleFavorite_rejected r w scr dev hrw
    rw [hu.1]
    simp only [boundedBy, hu.2]
    exact h
  · simp only [Bool.and_eq_true] at hrw
    rcases hrw with ⟨rfl, rfl⟩
    rcases scr with ⟨title, flag⟩
    rcases h with ⟨c, hst, hall, hlen⟩
    cases flag
    · rw [toggleFavorite_add title dev c hst, map_reserialize_allWebtoons hall]
      refine ⟨c ++ [webtoon title], rfl, ?_, ?_⟩
      · intro fav hfav
        rcases List.mem_append.mp hfav with hfav | hfav
        · exact hall fav hfav
        · exact ⟨title, List.mem_singleton.mp hfav⟩
      · simp at hlen ⊢
        exact hlen
    · rw [toggleFavorite_remove title dev c hst (allWebtoons_ne_null hall),
        withoutId_allWebtoons hall]
      refine ⟨[], rfl, ?_, ?_⟩
      · intro fav hfav
        simp at hfav
      · simp

/-- Every sequence of `toggleFavorite` calls keeps the bound on the number of stored entries. -/
theorem runToggles_boundedBy (n : Nat) (presses : List (Bool × Bool)) :
    ∀ (scr : DetailScreen) (dev : Device), boundedBy n scr dev →
      boundedBy n (runToggles presses scr dev).1 (runToggles presses scr dev).2 := by
  induction presses with
  | nil => intro scr dev h; exact h
  | cons p rest ih =>
    intro scr dev h
    rcases p with ⟨r, w⟩
    simp only [runToggles]
    exact ih _ _ (toggleFavorite_boundedBy n r w scr dev h)

/-- Every sequence of visits adds at most one stored entry per visit. -/
theorem runVisits_bound (visits : List (String × List (Bool × Bool))) :
    ∀ (n : Nat) (dev : Device),
      (∃ c, storedCollection dev.storage.favorites = some c ∧ allWebtoons c ∧ c.length ≤ n) →
      ∃ c, storedCollection (runVisits visits dev).storage.favorites = some c ∧ allWebtoons c ∧
        c.length ≤ n + visits.length := by
  induction visits with
  | nil => intro n dev h; simpa [runVisits] using h
  | cons v rest ih =>
    intro n dev h
    rcases v with ⟨t, presses⟩
    simp only [runVisits, List.length_cons]
    have h0 : boundedBy n (DetailScreen.mount t) dev := by
      rcases h with ⟨c, hst, hall, hlen⟩
      exact ⟨c, hst, hall, by simp [DetailScreen.mount]; exact hlen⟩
    have h1 := runToggles_boundedBy n presses (DetailScreen.mount t) dev h0
    rcases h1 with ⟨c, hst, hall, hlen⟩
    have hlen1 : c.length ≤ n + 1 := by
      refine le_trans hlen ?_
      split <;> omega
    rcases ih (n + 1) _ ⟨c, hst, hall, hlen1⟩ with ⟨c2, hst2, hall2, hlen2⟩
    exact ⟨c2, hst2, hall2, by omega⟩

/-! ## C1: adding twice -/

/-- C1, as stated, fails: from an absent store, running the add path of `toggleFavorite` twice
persists two entries for the item, not the one-entry collection persisted by running it once. -/
theorem add_twice_counterexample :
    (addPath "Action" (addPath "Action" (deviceWith none))).storage.favorites
        ≠ (addPath "Action" (deviceWith none)).storage.favorites ∧
      (addPath "Action" (deviceWith none)).storage.favorites
        = some (Text.json (Json.arr [webtoon "Action"])) ∧
      (addPath "Action" (addPath "Action" (deviceWith none))).storage.favorites
        = some (Text.json (Json.arr [webtoon "Action", webtoon "Action"])) := by
  simp [addPath, deviceWith, toggleFavorite, toggleFavoriteTry, AsyncStorage.getItem, truthy,
    callPush, AsyncStorage.setItem, JSON.stringify, JSON.parse, reserialize_arr,
    reserialize_webtoon]

/-- C1, amended: on every store that holds a collection `c` (absent, empty or a serialised
sequence), the add path persists `c`, as `JSON.stringify` writes it, with the item appended,
and running it a second time appends the item once more, so that the store then holds two
more entries with the item id than `c` did. -/
theorem add_twice_appends_twice (t : String) (dev : Device) (c : List Json)
    (h : storedCollection dev.storage.favorites = some c) :
    (addPath t dev).storage.favorites
        = some (Text.json (Json.arr (c.map reserialize ++ [webtoon t]))) ∧
      (addPath t (addPath t dev)).storage.favorites
        = some (Text.json (Json.arr (c.map reserialize ++ [webtoon t] ++ [webtoon t]))) ∧
      countId "1" (c.map reserialize ++ [webtoon t] ++ [webtoon t]) = countId "1" c + 2 := by
  have h1 : addPath t dev =
      { storage :=
          { favorites := some (Text.json (Json.arr (c.map reserialize ++ [webtoon t]))),
            resolvedWrites :=
              dev.storage.resolvedWrites ++
                [Text.json (Json.arr (c.map reserialize ++ [webtoon t]))] },
        console := dev.console } := by
    simp only [addPath, toggleFavorite_add t dev c h]
  refine ⟨by rw [h1], ?_, ?_⟩
  · have h2 := toggleFavorite_add t (addPath t dev) (c.map reserialize ++ [webtoon t])
      (by rw [h1]; rfl)
    rw [List.map_append, map_reserialize_idem, List.map_singleton, reserialize_webtoon] at h2
    simp only [addPath] at h2 ⊢
    rw [h2]
  · have hc := countId_map_reserialize "1" c
    simp only [countId] at hc ⊢
    simp [List.countP_append, webtoon_hasId, hc]

/-- Witness of C1 amended, on a store that already holds the item. -/
theorem add_twice_appends_twice_witness :
    storedCollection sampleDevice.storage.favorites = some sampleCollection ∧
      ((addPath "Action" sampleDevice).storage.favorites
          = some (Text.json (Json.arr (sampleCollection.map reserialize ++ [webtoon "Action"]))) ∧
        (addPath "Action" (addPath "Action" sampleDevice)).storage.favorites
          = some (Text.json (Json.arr
              (sampleCollection.map reserialize ++ [webtoon "Action"] ++ [webtoon "Action"]))) ∧
        countId "1" (sampleCollection.map reserialize ++ [webtoon "Action"] ++ [webtoon "Action"])
          = countId "1" sampleCollection + 2) :=
  ⟨rfl, add_twice_appends_twice "Action" sampleDevice sampleCollection rfl⟩

/-! ## C6: remove really removes -/

/-- C6: on every store that holds a collection `c` of entries (several of them may carry the
item id, or none), the remove path of `toggleFavorite` persists `c` without the entries that
carry the item id, as `JSON.stringify` writes them, and the membership check on the persisted
collection is false. -/
theorem remove_really_removes (t : String) (dev : Device) (c : List Json)
    (h : storedCollection dev.storage.favorites = some c) (hc : ∀ fav ∈ c, fav ≠ Json.null) :
    (removePath t dev).storage.favorites
        = some (Text.json (Json.arr ((withoutId "1" c).map reserialize))) ∧
      storedCollection (removePath t dev).storage.favorites
        = some ((withoutId "1" c).map reserialize) ∧
      containsId "1" ((withoutId "1" c).map reserialize) = false := by
  have h1 : (removePath t dev).storage.favorites
      = some (Text.json (Json.arr ((withoutId "1" c).map reserialize))) := by
    simp only [removePath, toggleFavorite_remove t dev c h hc]
  refine ⟨h1, by rw [h1]; rfl, ?_⟩
  rw [containsId_map_reserialize]
  exact containsId_withoutId "1" c

/-- Witness of C6, on a store that holds the item twice among other entries. -/
theorem remove_really_removes_witness :
    (storedCollection sampleDevice.storage.favorites = some sampleCollection ∧
      ∀ fav ∈ sampleCollection, fav ≠ Json.null) ∧
    ((removePath "Comedy" sampleDevice).storage.favorites
        = some (Text.json (Json.arr ((withoutId "1" sampleCollection).map reserialize))) ∧
      storedCollection (removePath "Comedy" sampleDevice).storage.favorites
        = some ((withoutId "1" sampleCollection).map reserialize) ∧
      containsId "1" ((withoutId "1" sampleCollection).map reserialize) = false) :=
  ⟨⟨rfl, by simp [sampleCollection, webtoon]⟩,
    remove_really_removes "Comedy" sampleDevice sampleCollection rfl
      (by simp [sampleCollection, webtoon])⟩

/-! ## C7: removing twice -/

/-- C7: on every store that holds a collection `c`, running the remove path of
`toggleFavorite` twice persists the same value as running it once, namely `c` without the
entries that carry the item id, as `JSON.stringify` writes them; and when `c` has no such
entry, the persisted collection is `c` as `JSON.stringify` writes it, which for a sequence of
`FavoriteItem` is `c` itself, same items in the same order. -/
theorem remove_idempotent (t : String) (dev : Device) (c : List Json)
    (h : storedCollection dev.storage.favorites = some c) (hc : ∀ fav ∈ c, fav ≠ Json.null) :
    (removePath t dev).storage.favorites
        = some (Text.json (Json.arr ((withoutId "1" c).map reserialize))) ∧
      (removePath t (removePath t dev)).storage.favorites
        = (removePath t dev).storage.favorites ∧
      (containsId "1" c = false →
        (removePath t dev).storage.favorites = some (Text.json (Json.arr (c.map reserialize)))) ∧
      (containsId "1" c = false → (∀ fav ∈ c, isFavoriteItem fav = true) →
        (removePath t dev).storage.favorites = some (Text.json (Json.arr c))) := by
  have h1 : (removePath t dev).storage.favorites
      = some (Text.json (Json.arr ((withoutId "1" c).map reserialize))) := by
    simp only [removePath, toggleFavorite_remove t dev c h hc]
  have hno : containsId "1" ((withoutId "1" c).map reserialize) = false := by
    rw [containsId_map_reserialize]
    exact containsId_withoutId "1" c
  refine ⟨h1, ?_, ?_, ?_⟩
  · have hst : storedCollection (removePath t dev).storage.favorites
        = some ((withoutId "1" c).map reserialize) := by rw [h1]; rfl
    rcases toggleFavorite_remove_cases t (removePath t dev) _ hst with ⟨_, h2⟩ | ⟨_, h2⟩
    · simp only [removePath] at h2 ⊢
      rw [h2]
    · rw [withoutId_of_not_containsId "1" _ hno, map_reserialize_idem] at h2
      rw [h1]
      simp only [removePath] at h2 ⊢
      rw [h2]
  · intro hn
    rw [h1, withoutId_of_not_containsId "1" c hn]
  · intro hn hv
    rw [h1, withoutId_of_not_containsId "1" c hn, map_reserialize_of_isFavoriteItem hv]

/-- Witness of C7: on a store that holds the item twice among other entries, and on a store
that holds one `FavoriteItem` with another id, which the remove path persists unchanged. -/
theorem remove_idempotent_witness :
    ((storedCollection sampleDevice.storage.favorites = some sampleCollection ∧
        ∀ fav ∈ sampleCollection, fav ≠ Json.null) ∧
      (removePath "Comedy" (removePath "Comedy" sampleDevice)).storage.favorites
        = (removePath "Comedy" sampleDevice).storage.favorites) ∧
    ((storedCollection otherDevice.storage.favorites = some [otherItem] ∧
        (∀ fav ∈ [otherItem], fav ≠ Json.null) ∧ containsId "1" [otherItem] = false ∧
        ∀ fav ∈ [otherItem], isFavoriteItem fav = true) ∧
      (removePath "Comedy" otherDevice).storage.favorites
        = some (Text.json (Json.arr [otherItem]))) :=
  ⟨⟨⟨rfl, by simp [sampleCollection, webtoon]⟩,
      (remove_idempotent "Comedy" sampleDevice sampleCollection rfl
        (by simp [sampleCollection, webtoon])).2.1⟩,
    ⟨⟨rfl, by simp [otherItem], by simp [containsId, hasId, otherItem, lookupField],
        by simp [isFavoriteItem, isString, otherItem, lookupField]⟩,
      (remove_idempotent "Comedy" otherDevice [otherItem] rfl (by simp [otherItem])).2.2.2
        (by simp [containsId, hasId, otherItem, lookupField])
        (by simp [isFavoriteItem, isString, otherItem, lookupField])⟩⟩

/-! ## C3: loading a value that is not a serialised sequence -/

/-- C3, as stated, fails: the text `5` is not a serialised sequence of items, and
`loadFavorites` leaves the number 5, not the empty collection, in the `favorites` state. -/
theorem load_corrupt_counterexample :
    ¬ validStore
        (deviceWith (some (Text.json (Json.num (JsNumber.finite 5))))).storage.favorites ∧
      (loadFavorites true FavoritesScreen.mount
          (deviceWith (some (Text.json (Json.num (JsNumber.finite 5)))))).2.1.favorites
        = Json.num (JsNumber.finite 5) ∧
      (loadFavorites true FavoritesScreen.mount
          (deviceWith (some (Text.json (Json.num (JsNumber.finite 5)))))).2.1.favorites
        ≠ Json.arr [] := by
  refine ⟨?_, ?_, ?_⟩
  · simp [validStore, deviceWith, storedCollection]
  · simp [loadFavorites, loadFavoritesTry, AsyncStorage.getItem, deviceWith, truthy, JSON.parse]
  · simp [loadFavorites, loadFavoritesTry, AsyncStorage.getItem, deviceWith, truthy, JSON.parse]

/-- C3, amended: `loadFavorites` never fails its caller and never changes the store; the
`favorites` state of a freshly mounted `FavoritesScreen` stays the empty collection when the
read is rejected, when the value is absent or empty, and when the text does not parse; when
the text parses to a value `v`, whatever `v` is, the state becomes `v`. -/
theorem load_lenient_on_parse_failure (r : Bool) (dev : Device) :
    (loadFavorites r FavoritesScreen.mount dev).1 = Except.ok () ∧
      (loadFavorites r FavoritesScreen.mount dev).2.2.storage = dev.storage ∧
      ((r = false ∨ dev.storage.favorites = none ∨ dev.storage.favorites = some Text.empty ∨
          ∃ raw, dev.storage.favorites = some (Text.malformed raw)) →
        (loadFavorites r FavoritesScreen.mount dev).2.1.favorites = Json.arr []) ∧
      (∀ v, r = true → dev.storage.favorites = some (Text.json v) →
        (loadFavorites r FavoritesScreen.mount dev).2.1.favorites = v) := by
  refine ⟨?_, ?_, ?_, ?_⟩
  · simp only [loadFavorites]
    split <;> rfl
  · simp only [loadFavorites]
    split <;> rfl
  · intro h
    cases r
    · simp [loadFavorites, loadFavoritesTry, AsyncStorage.getItem, FavoritesScreen.mount]
    · rcases h with h | h | h | ⟨raw, h⟩
      · simp at h
      · simp [loadFavorites, loadFavoritesTry, AsyncStorage.getItem, FavoritesScreen.mount, h,
          truthy]
      · simp [loadFavorites, loadFavoritesTry, AsyncStorage.getItem, FavoritesScreen.mount, h,
          truthy]
      · simp [loadFavorites, loadFavoritesTry, AsyncStorage.getItem, FavoritesScreen.mount, h,
          truthy, JSON.parse]
  · intro v hr h
    subst hr
    rw [loadFavorites_json _ dev v h]

/-- Witness of C3 amended, on a text that does not parse. -/
theorem load_lenient_on_parse_failure_witness :
    (loadFavorites true FavoritesScreen.mount
        (deviceWith (some (Text.malformed "not json")))).2.1.favorites = Json.arr [] :=
  (load_lenient_on_parse_failure true (deviceWith (some (Text.malformed "not json")))).2.2.1
    (Or.inr (Or.inr (Or.inr ⟨"not json", rfl⟩)))

/-! ## C4: the flag follows the write -/

/-- C4: for every store state and every flag, no exception escapes `toggleFavorite`; the call
flips the flag exactly when a `setItem` write resolved during it; and when the read is
rejected, the stored text does not parse or the write is rejected, the flag and the persisted
value are those before the call. -/
theorem toggle_pessimistic (r w : Bool) (scr : DetailScreen) (dev : Device) :
    (toggleFavorite r w scr dev).1 = Except.ok () ∧
      ((toggleFavorite r w scr dev).2.1.isFavorite = (!scr.isFavorite) ↔
        (toggleFavorite r w scr dev).2.2.storage.resolvedWrites.length
          = dev.storage.resolvedWrites.length + 1) ∧
      ((r = false ∨ (∃ raw, dev.storage.favorites = some (Text.malformed raw)) ∨ w = false) →
        (toggleFavorite r w scr dev).2.1.isFavorite = scr.isFavorite ∧
          (toggleFavorite r w scr dev).2.2.storage.favorites = dev.storage.favorites) := by
  have hs := toggleFavorite_snd r w scr dev
  refine ⟨?_, ?_, ?_⟩
  · simp only [toggleFavorite]
    split <;> rfl
  · rw [hs.1, hs.2]
    rcases toggleFavoriteTry_cases r w scr dev.storage with ⟨e, he⟩ | ⟨v, _, _, hv⟩
    · rw [he]
      cases scr.isFavorite <;> simp
    · rw [hv]
      simp
  · intro h
    rw [hs.1, hs.2]
    have hu : ∃ e, toggleFavoriteTry r w scr dev.storage = (Except.error e, scr, dev.storage) := by
      rcases h with h | ⟨raw, h⟩ | h
      · subst h
        exact ⟨_, toggleFavoriteTry_read_rejected w scr dev.storage⟩
      · exact toggleFavoriteTry_malformed r w scr dev.storage raw h
      · subst h
        rcases toggleFavoriteTry_cases r false scr dev.storage with he | ⟨v, _, hw, _⟩
        · exact he
        · simp at hw
    rcases hu with ⟨e, he⟩
    rw [he]
    exact ⟨rfl, rfl⟩

/-- Witness of C4: a rejected write on a stored collection, with the flag set. -/
theorem toggle_pessimistic_witness :
    (toggleFavorite true false { categoryTitle := "Action", isFavorite := true }
        sampleDevice).2.1.isFavorite = true ∧
      (toggleFavorite true false { categoryTitle := "Action", isFavorite := true }
        sampleDevice).2.2.storage.favorites = sampleDevice.storage.favorites :=
  (toggle_pessimistic true false { categoryTitle := "Action", isFavorite := true }
    sampleDevice).2.2 (Or.inr (Or.inr rfl))

/-! ## C5: toggling over a value that is not a serialised sequence -/

/-- C5, as stated, fails: on a stored text that does not parse, `toggleFavorite` with the flag
unset persists nothing (the text stays as it was, not the one-item collection) and leaves the
flag unset. -/
theorem toggle_corrupt_counterexample :
    ¬ validStore (deviceWith (some (Text.malformed "not json"))).storage.favorites ∧
      (toggleFavorite true true (DetailScreen.mount "Action")
          (deviceWith (some (Text.malformed "not json")))).2.1.isFavorite = false ∧
      (toggleFavorite true true (DetailScreen.mount "Action")
          (deviceWith (some (Text.malformed "not json")))).2.2.storage.favorites
        = some (Text.malformed "not json") ∧
      (toggleFavorite true true (DetailScreen.mount "Action")
          (deviceWith (some (Text.malformed "not json")))).2.2.storage.favorites
        ≠ some (Text.json (Json.arr [webtoon "Action"])) := by
  refine ⟨?_, ?_, ?_, ?_⟩
  · simp [validStore, deviceWith, storedCollection]
  all_goals
    simp [toggleFavorite, toggleFavoriteTry, AsyncStorage.getItem, deviceWith, truthy,
      JSON.parse, DetailScreen.mount]

/-- C5, amended: with the flag unset and the read and the write resolving, `toggleFavorite`
treats the stored text as an empty collection only when it is the empty string: it then
persists the one-item collection and sets the flag.  On a non-empty text that does not parse,
or on a text that parses to a value that is not a list, it prints the error and leaves the
flag and the store as they were.  On a text that parses to a list, of items or not, it
persists that list as `JSON.stringify` writes it (an `Infinity` becomes `null`), with the item
appended, and sets the flag. -/
theorem toggle_corrupt_not_recovered (t : String) (dev : Device) :
    (dev.storage.favorites = some Text.empty →
        (toggleFavorite true true (DetailScreen.mount t) dev).2.1.isFavorite = true ∧
          (toggleFavorite true true (DetailScreen.mount t) dev).2.2.storage.favorites
            = some (Text.json (Json.arr [webtoon t]))) ∧
      (∀ raw, dev.storage.favorites = some (Text.malformed raw) →
        toggleFavorite true true (DetailScreen.mount t) dev =
          (Except.ok (), DetailScreen.mount t,
            { storage := dev.storage,
              console := dev.console ++ [("Error toggling favorite:", JsError.syntaxError)] })) ∧
      (∀ v, dev.storage.favorites = some (Text.json v) → (∀ items, v ≠ Json.arr items) →
        toggleFavorite true true (DetailScreen.mount t) dev =
          (Except.ok (), DetailScreen.mount t,
            { storage := dev.storage,
              console := dev.console ++ [("Error toggling favorite:", JsError.typeError)] })) ∧
      (∀ items, dev.storage.favorites = some (Text.json (Json.arr items)) →
        (toggleFavorite true true (DetailScreen.mount t) dev).2.1.isFavorite = true ∧
          (toggleFavorite true true (DetailScreen.mount t) dev).2.2.storage.favorites
            = some (Text.json (Json.arr (items.map reserialize ++ [webtoon t])))) := by
  refine ⟨?_, ?_, ?_, ?_⟩
  · intro h
    have hc : storedCollection dev.storage.favorites = some [] := by rw [h]; rfl
    simp only [DetailScreen.mount, toggleFavorite_add t dev [] hc, List.map_nil, List.nil_append,
      and_self]
  · intro raw h
    simp [toggleFavorite, toggleFavoriteTry, AsyncStorage.getItem, h, truthy, JSON.parse]
  · intro v h hv
    cases v with
    | arr items => exact absurd rfl (hv items)
    | _ =>
      simp [toggleFavorite, toggleFavoriteTry, AsyncStorage.getItem, h, truthy, JSON.parse,
        DetailScreen.mount, callPush]
  · intro items h
    have hc : storedCollection dev.storage.favorites = some items := by rw [h]; rfl
    simp only [DetailScreen.mount, toggleFavorite_add t dev items hc, and_self]

/-- Witness of C5 amended: on the stored text `[1e400]` the persisted list starts with `null`;
on the empty string the one-item collection is persisted. -/
theorem toggle_corrupt_not_recovered_witness :
    ((toggleFavorite true true (DetailScreen.mount "Action") overflowDevice).2.1.isFavorite
          = true ∧
        (toggleFavorite true true (DetailScreen.mount "Action")
            overflowDevice).2.2.storage.favorites
          = some (Text.json (Json.arr [Json.null, webtoon "Action"]))) ∧
      ((toggleFavorite true true (DetailScreen.mount "Action")
            (deviceWith (some Text.empty))).2.1.isFavorite = true ∧
        (toggleFavorite true true (DetailScreen.mount "Action")
            (deviceWith (some Text.empty))).2.2.storage.favorites
          = some (Text.json (Json.arr [webtoon "Action"]))) :=
  ⟨(toggle_corrupt_not_recovered "Action" overflowDevice).2.2.2
      [Json.num JsNumber.infinity] rfl,
    (toggle_corrupt_not_recovered "Action" (deviceWith (some Text.empty))).1 rfl⟩

/-! ## C8: add, load, remove, load -/

/-- C8: on every store that holds a valid collection `c` with no entry carrying the item id,
a successful `toggleFavorite` on a fresh `DetailScreen` sets the flag and a following
`loadFavorites` yields `c` with the item appended at the end; a second successful
`toggleFavorite` on the same screen clears the flag and a following `loadFavorites` yields
exactly `c`. -/
theorem add_remove_round_trip (t : String) (dev : Device) (c : List Json)
    (h : storedCollection dev.storage.favorites = some c)
    (hv : ∀ fav ∈ c, isFavoriteItem fav = true) (hn : containsId "1" c = false) :
    (toggleFavorite true true (DetailScreen.mount t) dev).2.1.isFavorite = true ∧
      (loadFavorites true FavoritesScreen.mount
          (toggleFavorite true true (DetailScreen.mount t) dev).2.2).2.1.favorites
        = Json.arr (c ++ [webtoon t]) ∧
      (toggleFavorite true true (toggleFavorite true true (DetailScreen.mount t) dev).2.1
          (toggleFavorite true true (DetailScreen.mount t) dev).2.2).2.1.isFavorite = false ∧
      (loadFavorites true FavoritesScreen.mount
          (toggleFavorite true true (toggleFavorite true true (DetailScreen.mount t) dev).2.1
            (toggleFavorite true true (DetailScreen.mount t) dev).2.2).2.2).2.1.favorites
        = Json.arr c := by
  have h1 := toggleFavorite_add t dev c h
  rw [map_reserialize_of_isFavoriteItem hv] at h1
  have hnull : ∀ fav ∈ c ++ [webtoon t], fav ≠ Json.null := by
    intro fav hf
    rcases List.mem_append.mp hf with hf | hf
    · exact isFavoriteItem_ne_null (hv fav hf)
    · rw [List.mem_singleton.mp hf]
      exact isFavoriteItem_ne_null (webtoon_isFavoriteItem t)
  simp only [DetailScreen.mount]
  rw [h1]
  have h2 := toggleFavorite_remove t
    { storage :=
        { favorites := some (Text.json (Json.arr (c ++ [webtoon t]))),
          resolvedWrites :=
            dev.storage.resolvedWrites ++ [Text.json (Json.arr (c ++ [webtoon t]))] },
      console := dev.console } (c ++ [webtoon t]) rfl hnull
  rw [withoutId_append_webtoon t c hn, map_reserialize_of_isFavoriteItem hv] at h2
  simp only at h2 ⊢
  rw [h2]
  refine ⟨?_, ?_, ?_, ?_⟩
  · trivial
  · rw [loadFavorites_json _ _ (Json.arr (c ++ [webtoon t])) rfl]
  · rfl
  · rw [loadFavorites_json _ _ (Json.arr c) rfl]

/-- Witness of C8: the scenario of the specification, from an absent store. -/
theorem add_remove_round_trip_witness :
    (storedCollection (deviceWith none).storage.favorites = some [] ∧
      containsId "1" [] = false) ∧
    (loadFavorites true FavoritesScreen.mount
        (toggleFavorite true true (DetailScreen.mount "Action")
          (deviceWith none)).2.2).2.1.favorites
      = Json.arr ([] ++ [webtoon "Action"]) ∧
    (loadFavorites true FavoritesScreen.mount
        (toggleFavorite true true
          (toggleFavorite true true (DetailScreen.mount "Action") (deviceWith none)).2.1
          (toggleFavorite true true (DetailScreen.mount "Action")
            (deviceWith none)).2.2).2.2).2.1.favorites
      = Json.arr [] :=
  ⟨⟨rfl, rfl⟩,
    (add_remove_round_trip "Action" (deviceWith none) [] rfl (by simp) rfl).2.1,
    (add_remove_round_trip "Action" (deviceWith none) [] rfl (by simp) rfl).2.2.2⟩

/-! ## C9: the flag on entry -/

/-- C9, as stated, fails: with the item persisted, the membership check on the stored
collection is true, while the flag of a freshly mounted `DetailScreen` is false, and the first
`toggleFavorite` takes the add branch and persists a second entry for the item. -/
theorem flag_on_entry_counterexample :
    storedCollection (deviceWith (some (Text.json (Json.arr [webtoon "Action"])))).storage.favorites
        = some [webtoon "Action"] ∧
      containsId "1" [webtoon "Action"] = true ∧
      (DetailScreen.mount "Action").isFavorite = false ∧
      (toggleFavorite true true (DetailScreen.mount "Action")
          (deviceWith (some (Text.json (Json.arr [webtoon "Action"]))))).2.2.storage.favorites
        = some (Text.json (Json.arr [webtoon "Action", webtoon "Action"])) := by
  refine ⟨rfl, ?_, rfl, ?_⟩
  · simp [containsId, webtoon_hasId]
  · simp [toggleFavorite, toggleFavoriteTry, AsyncStorage.getItem, deviceWith, truthy,
      JSON.parse, DetailScreen.mount, callPush, AsyncStorage.setItem, JSON.stringify,
      reserialize_arr, reserialize_webtoon]

/-- C9, amended: for every persisted collection `c`, whether or not it has an entry with the
item id, the flag of a freshly mounted `DetailScreen` is false, and the first successful
`toggleFavorite` takes the add branch: it persists `c`, as `JSON.stringify` writes it, with
the item appended and sets the flag. -/
theorem flag_on_entry_is_false (t : String) (dev : Device) (c : List Json)
    (h : storedCollection dev.storage.favorites = some c) :
    (DetailScreen.mount t).isFavorite = false ∧
      (toggleFavorite true true (DetailScreen.mount t) dev).2.1.isFavorite = true ∧
      (toggleFavorite true true (DetailScreen.mount t) dev).2.2.storage.favorites
        = some (Text.json (Json.arr (c.map reserialize ++ [webtoon t]))) := by
  simp only [DetailScreen.mount, toggleFavorite_add t dev c h, and_self]

/-- Witness of C9 amended, on a store that already holds the item. -/
theorem flag_on_entry_is_false_witness :
    storedCollection sampleDevice.storage.favorites = some sampleCollection ∧
      containsId "1" sampleCollection = true ∧
      ((DetailScreen.mount "Comedy").isFavorite = false ∧
        (toggleFavorite true true (DetailScreen.mount "Comedy") sampleDevice).2.1.isFavorite
          = true ∧
        (toggleFavorite true true (DetailScreen.mount "Comedy")
            sampleDevice).2.2.storage.favorites
          = some (Text.json (Json.arr (sampleCollection.map reserialize ++ [webtoon "Comedy"])))) :=
  ⟨rfl, by simp [containsId, sampleCollection, webtoon_hasId],
    flag_on_entry_is_false "Comedy" sampleDevice sampleCollection rfl⟩

/-! ## C2: identifiers across visits -/

/-- C2, as stated, fails: from an absent store, two visits with one successful
`toggleFavorite` each leave two entries with the same id under the key `favorites`. -/
theorem id_unique_counterexample :
    (runVisits [("Action", [(true, true)]), ("Action", [(true, true)])]
        (deviceWith none)).storage.favorites
      = some (Text.json (Json.arr [webtoon "Action", webtoon "Action"])) ∧
    countId "1" [webtoon "Action", webtoon "Action"] = 2 := by
  constructor
  · simp [runVisits, runToggles, DetailScreen.mount, deviceWith, toggleFavorite,
      toggleFavoriteTry, AsyncStorage.getItem, truthy, JSON.parse, callPush,
      AsyncStorage.setItem, JSON.stringify, reserialize_arr, reserialize_webtoon]
  · simp [countId, webtoon_hasId]

/-- C2, amended: starting from an empty or absent store, after any sequence of `DetailScreen`
visits and `toggleFavorite` calls the store holds a collection of items built by
`DetailScreen`, with at most one entry per visit made; and on every stored collection `c`, a
load right after an add returns `c`, as `JSON.stringify` writes it, with the item appended,
which holds the item id once more than `c` did. -/
theorem entries_bounded_by_visits (visits : List (String × List (Bool × Bool))) (dev : Device)
    (h : dev.storage.favorites = none ∨ dev.storage.favorites = some Text.empty) :
    (∃ c, storedCollection (runVisits visits dev).storage.favorites = some c ∧ allWebtoons c ∧
        c.length ≤ visits.length) ∧
      (∀ (t : String) (dev1 : Device) (c : List Json),
        storedCollection dev1.storage.favorites = some c →
          (loadFavorites true FavoritesScreen.mount (addPath t dev1)).2.1.favorites
              = Json.arr (c.map reserialize ++ [webtoon t]) ∧
            countId "1" (c.map reserialize ++ [webtoon t]) = countId "1" c + 1) := by
  constructor
  · have h0 : ∃ c, storedCollection dev.storage.favorites = some c ∧ allWebtoons c ∧
        c.length ≤ 0 := by
      refine ⟨[], ?_, ?_, le_refl _⟩
      · rcases h with h | h <;> rw [h] <;> rfl
      · intro fav hfav
        simp at hfav
    simpa using runVisits_bound visits 0 dev h0
  · intro t dev1 c hst
    constructor
    · simp only [addPath, toggleFavorite_add t dev1 c hst]
      rw [loadFavorites_json _ _ (Json.arr (c.map reserialize ++ [webtoon t])) rfl]
    · have hc := countId_map_reserialize "1" c
      simp only [countId] at hc ⊢
      simp [List.countP_append, webtoon_hasId, hc]

/-- Witness of C2 amended: three visits from an absent store, the second with a rejected
write and a removal. -/
theorem entries_bounded_by_visits_witness :
    ∃ c, storedCollection
        (runVisits [("Action", [(true, true)]), ("Romance", [(true, false), (true, true)]),
          ("Comedy", [(true, true), (true, true)])] (deviceWith none)).storage.favorites = some c ∧
      allWebtoons c ∧ c.length ≤ 3 :=
  (entries_bounded_by_visits
    [("Action", [(true, true)]), ("Romance", [(true, false), (true, true)]),
      ("Comedy", [(true, true), (true, true)])] (deviceWith none) (Or.inl rfl)).1

/-! ## C10: flag and store within one visit -/

/-- C10: if a visit starts on a store that holds a collection with no entry carrying the item
id (every valid collection without the item is one), then after every sequence of
`toggleFavorite` calls of that visit, each run to completion and with reads and writes
resolving or rejecting arbitrarily, the store holds a collection, the flag equals the
membership check for the item id on it, and when the flag is set the collection has exactly
one entry with the item id. -/
theorem flag_matches_store_within_visit (t : String) (presses : List (Bool × Bool))
    (dev : Device) (c : List Json)
    (h : storedCollection dev.storage.favorites = some c) (hn : containsId "1" c = false) :
    ∃ c1, storedCollection (runToggles presses (DetailScreen.mount t) dev).2.storage.favorites
        = some c1 ∧
      (runToggles presses (DetailScreen.mount t) dev).1.isFavorite = containsId "1" c1 ∧
      ((runToggles presses (DetailScreen.mount t) dev).1.isFavorite = true →
        countId "1" c1 = 1) := by
  have h0 : visitInv t (DetailScreen.mount t) dev := ⟨rfl, c, hn, Or.inl ⟨rfl, h⟩⟩
  have hinv := runToggles_visitInv t presses (DetailScreen.mount t) dev h0
  rcases hinv with ⟨_, c2, hn2, ⟨hf, hst⟩ | ⟨hf, hst⟩⟩
  · refine ⟨c2, hst, ?_, ?_⟩
    · rw [hf, hn2]
    · intro htrue
      rw [hf] at htrue
      simp at htrue
  · have hcount : countId "1" c2 = 0 := by
      simp only [containsId, List.any_eq_false] at hn2
      simp only [countId, List.countP_eq_zero]
      intro fav hfav
      simp [hn2 fav hfav]
    refine ⟨c2 ++ [webtoon t], by rw [hst]; rfl, ?_, ?_⟩
    · rw [hf]
      simp [containsId, webtoon_hasId]
    · intro _
      simp [countId, List.countP_append, webtoon_hasId] at hcount ⊢
      exact hcount

/-- Witness of C10: a visit on a stored one-item collection, with a rejected read, a rejected
write and three resolved calls. -/
theorem flag_matches_store_within_visit_witness :
    (storedCollection otherDevice.storage.favorites = some [otherItem] ∧
      containsId "1" [otherItem] = false) ∧
    ∃ c1, storedCollection
        (runToggles [(false, true), (true, true), (true, false), (true, true), (true, true)]
          (DetailScreen.mount "Action") otherDevice).2.storage.favorites = some c1 ∧
      (runToggles [(false, true), (true, true), (true, false), (true, true), (true, true)]
          (DetailScreen.mount "Action") otherDevice).1.isFavorite = containsId "1" c1 ∧
      ((runToggles [(false, true), (true, true), (true, false), (true, true), (true, true)]
          (DetailScreen.mount "Action") otherDevice).1.isFavorite = true →
        countId "1" c1 = 1) :=
  ⟨⟨rfl, by simp [containsId, hasId, otherItem, lookupField]⟩,
    flag_matches_store_within_visit "Action"
      [(false, true), (true, true), (true, false), (true, true), (true, true)]
      otherDevice [otherItem] rfl (by simp [containsId, hasId, otherItem, lookupField])⟩

end App
